import Mathlib

/-!
# Verification of the Render keep-alive / monitoring / reporting core

Shallow embedding of the repository's core logic:

* `keep_alive.py` — `RenderKeepAlive.ping_endpoint`, `is_service_healthy`;
* `monitoring.py` — `ServiceMonitor.get_logs`, `generate_report`;
* `main.py` — `RenderServiceManager.ping_service` health-state machine and
  `check_reporting_schedule` daily-report trigger;
* `reporting.py` — `ServiceReporter.send_report` retry loop and
  `send_alert`, with their backup-then-deliver effect order.

I/O (HTTP, SMTP, disk, wall clock) is abstracted: each embedded function
takes the outcome of the external calls it makes as an explicit argument
(HTTP outcome, per-attempt email success, current instant), and functions
whose contract is about effect ordering return an explicit effect trace.
Python floats are modelled by exact rationals; Python's `round(x, 2)` by
two-decimal rounding with ties to even.
-/

namespace RenderService

/-- Health classification of one probe attempt (`"UP"` / `"DOWN"`). -/
inductive Status where
  | UP
  | DOWN
deriving DecidableEq, Repr

/-- Outcome of one HTTP request made by `ping_endpoint`
(`requests.get/head` in the source): a response with a status code,
or one of the exception classes caught by the source's `try/except` arms. -/
inductive HttpOutcome where
  | response (code : Nat)
  | timeout
  | connectionError (msg : String)
  | requestError (msg : String)
  | otherError (msg : String)
deriving DecidableEq, Repr

/-- The result dict built by `RenderKeepAlive.ping_endpoint`
(`keep_alive.py` lines 51-60).  The wall-clock `timestamp` field is
omitted (pure wall-clock metadata, read by no claim). -/
structure ProbeResult where
  endpoint : String
  method : String
  url : String
  status : Status
  response_time_ms : Option Nat
  status_code : Option Nat
  error : Option String
deriving DecidableEq, Repr

/-- `RenderKeepAlive.ping_endpoint` (`keep_alive.py` lines 41-104).
`timeout_s` is `self.timeout`; `elapsed_ms` is the measured
`int((time.time() - start_time) * 1000)` for the response case;
`out` is the outcome of the HTTP request.  The source initialises the
result with `status="DOWN"` and all optional fields `None`, then fills
fields in per branch; each branch below builds the same final dict. -/
def ping_endpoint (base_url endpoint method : String) (timeout_s elapsed_ms : Nat)
    (out : HttpOutcome) : ProbeResult :=
  let url := base_url ++ endpoint
  match out with
  | .response code =>
      if code < 400 then
        { endpoint, method, url, status := .UP,
          response_time_ms := some elapsed_ms,
          status_code := some code, error := none }
      else
        { endpoint, method, url, status := .DOWN,
          response_time_ms := some elapsed_ms,
          status_code := some code,
          error := some ("HTTP " ++ toString code) }
  | .timeout =>
      { endpoint, method, url, status := .DOWN,
        response_time_ms := some (timeout_s * 1000),
        status_code := none,
        error := some ("Request timeout after " ++ toString timeout_s ++ "s") }
  | .connectionError msg =>
      { endpoint, method, url, status := .DOWN,
        response_time_ms := none, status_code := none,
        error := some ("Connection error: " ++ msg) }
  | .requestError msg =>
      { endpoint, method, url, status := .DOWN,
        response_time_ms := none, status_code := none,
        error := some ("Request error: " ++ msg) }
  | .otherError msg =>
      { endpoint, method, url, status := .DOWN,
        response_time_ms := none, status_code := none,
        error := some ("Unexpected error: " ++ msg) }

/-- `RenderKeepAlive.is_service_healthy` (`keep_alive.py` lines 122-132):
`any(result["status"] == "UP" for result in results)`. -/
def is_service_healthy (results : List ProbeResult) : Bool :=
  results.any (fun r => r.status == .UP)

/-! ## Log store and report builder (`monitoring.py`) -/

/-- Python truthiness of an optional integer field: both a missing value
(`None`) and `0` are falsy. -/
def truthyNat : Option Nat → Bool
  | none => false
  | some n => n != 0

/-- One entry of the uptime log as appended by `ServiceMonitor.log_ping`
(`monitoring.py` lines 57-84).  The ISO timestamp string is modelled as an
integer instant (comparisons on ISO strings of `datetime.fromisoformat`
agree with instant order). -/
structure LogEntry where
  timestamp : Int
  endpoint : String
  method : String
  status : Status
  response_time_ms : Option Nat
  status_code : Option Nat
  error : Option String
deriving DecidableEq, Repr

/-- A downtime incident as collected by `generate_report`
(`monitoring.py` lines 118-127).  The source reads
`log.get("error", "Unknown error")`; `log_ping` always stores the
`error` key (possibly `None`), so the incident carries the log's own
error value. -/
structure Incident where
  timestamp : Int
  endpoint : String
  method : String
  error : Option String
deriving DecidableEq, Repr

/-- Round-half-to-even to an integer, the tie behaviour of Python's
`round`, on exact rationals. -/
def roundHalfEven (q : ℚ) : ℤ :=
  let f := ⌊q⌋
  let r := q - f
  if r < 1/2 then f
  else if 1/2 < r then f + 1
  else if f % 2 = 0 then f else f + 1

/-- Python's `round(x, 2)` idealised on exact rationals. -/
def round2 (q : ℚ) : ℚ := (roundHalfEven (q * 100) : ℚ) / 100

/-- `ServiceMonitor.get_logs` (`monitoring.py` lines 86-103).  With both
bounds absent the whole list is returned; otherwise a record is skipped
(`continue`) when `log_time < start_time` or `log_time > end_time`
(`datetime` objects are always truthy, so a present bound is always
applied). -/
def get_logs (logs : List LogEntry) (start_time end_time : Option Int) : List LogEntry :=
  match start_time, end_time with
  | none, none => logs
  | _, _ =>
      logs.filter (fun log =>
        !(match start_time with
          | some s => decide (log.timestamp < s)
          | none => false)
        && !(match end_time with
          | some e => decide (e < log.timestamp)
          | none => false))

/-- The report dict built by `ServiceMonitor.generate_report`
(`monitoring.py` lines 135-145).  `report_date` (pure wall clock) is
omitted; float arithmetic is modelled exactly on `ℚ`. -/
structure Report where
  start_time : Option Int
  end_time : Option Int
  total_checks : Nat
  uptime_count : Nat
  downtime_count : Nat
  uptime_percentage : ℚ
  average_response_time_ms : Option ℚ
  downtime_incidents : List Incident
deriving DecidableEq, Repr

/-- `ServiceMonitor.generate_report` (`monitoring.py` lines 105-149).
The source's truthiness tests — `log.get("response_time_ms")` when
selecting `successful_pings`, and `if avg_response_time` guarding the
final `round(avg_response_time, 2)` — are rendered by `truthyNat` and a
zero test on the exact average. -/
def generate_report (logs : List LogEntry) (start_time end_time : Option Int) :
    Option Report :=
  let ls := get_logs logs start_time end_time
  if ls.isEmpty then none
  else
    let total_checks := ls.length
    let uptime_count := ls.countP (fun log => log.status == .UP)
    let downtime_count := total_checks - uptime_count
    let downtime_incidents :=
      (ls.filter (fun log => log.status == .DOWN)).map
        (fun log => Incident.mk log.timestamp log.endpoint log.method log.error)
    let successful_pings :=
      ls.filter (fun log => log.status == .UP && truthyNat log.response_time_ms)
    let avg_response_time : Option ℚ :=
      if successful_pings.isEmpty then none
      else some ((successful_pings.map
          (fun log => ((log.response_time_ms.getD 0 : Nat) : ℚ))).sum
        / (successful_pings.length : ℚ))
    some
      { start_time := start_time
        end_time := end_time
        total_checks := total_checks
        uptime_count := uptime_count
        downtime_count := downtime_count
        uptime_percentage :=
          if total_checks > 0 then ((uptime_count : ℚ) / (total_checks : ℚ)) * 100 else 0
        average_response_time_ms :=
          match avg_response_time with
          | some a => if a = 0 then none else some (round2 a)
          | none => none
        downtime_incidents := downtime_incidents }

/-! ## Scheduler transition logic and daily trigger (`main.py`) -/

/-- Alert kinds built by `RenderServiceManager` (`main.py` lines 113-121
and 136-143). -/
inductive AlertType where
  | DOWNTIME
  | RECOVERY
deriving DecidableEq, Repr

/-- The health-transition logic of one `RenderServiceManager.ping_service`
call (`main.py` lines 77-106, transition block lines 82-93).  The state
`service_down_notified` models `hasattr(self, '_service_down_notified')`
(initially absent, i.e. `false`); `healthy` is
`any(result["status"] == "UP" for result in results)`; `alert_ok` is the
boolean returned by `self.reporter.send_alert` for any alert sent this
cycle — the wrappers `_send_immediate_downtime_alert` and
`_send_service_recovery_alert` catch every exception and only log that
boolean, so the transition never consults it.  Returns the alert emitted
this cycle and the updated flag. -/
def ping_service_step (service_down_notified healthy alert_ok : Bool) :
    Option AlertType × Bool :=
  let _ := alert_ok
  if !healthy && !service_down_notified then (some .DOWNTIME, true)
  else if healthy && service_down_notified then (some .RECOVERY, false)
  else (none, service_down_notified)

/-- Iterate `ping_service_step` over a sequence of probe cycles, each
given as (health observation, alert delivery outcome for that cycle);
returns the alerts emitted, in order. -/
def run_ping_cycles (service_down_notified : Bool) :
    List (Bool × Bool) → List (Option AlertType)
  | [] => []
  | (healthy, alert_ok) :: rest =>
      let step := ping_service_step service_down_notified healthy alert_ok
      step.1 :: run_ping_cycles step.2 rest

/-- A wall-clock instant as read by `datetime.datetime.now()` in the
report loop: calendar date (abstract), hour and minute. -/
structure Instant where
  date : Nat
  hour : Nat
  minute : Nat
deriving DecidableEq, Repr

/-- One iteration of the `while True` loop of
`RenderServiceManager.check_reporting_schedule` (`main.py` lines
185-237), as a function of the loop variable `last_report_date`, the
current wall clock, and the outcomes of the external calls in the body:
whether `self.monitor.generate_report` returned a report
(`report_available`) and whether `self.reporter.send_report` succeeded
(`send_ok`).  `reporting_schedule` is the configured
`reporting.schedule` hour:minute pair loaded in `__init__` (`main.py`
line 50); the loop body never reads it — the test is hard-coded as
`is_midnight = now.hour == 0 and now.minute == 0`.  On a send that
fails, `last_report_date` is left unchanged; on a send that succeeds, or
when no report data is available ("mark as attempted"), it is set to the
current date.  Returns whether a report was successfully sent this tick
and the updated `last_report_date`. -/
def check_reporting_schedule_tick (reporting_schedule : Nat × Nat)
    (last_report_date : Option Nat) (now : Instant)
    (report_available send_ok : Bool) : Bool × Option Nat :=
  let _ := reporting_schedule
  let is_midnight := now.hour == 0 && now.minute == 0
  let should_send_report := is_midnight && last_report_date != some now.date
  if should_send_report then
    if report_available then
      if send_ok then (true, some now.date)
      else (false, last_report_date)
    else (false, some now.date)
  else (false, last_report_date)

/-! ## Notifier delivery, retries and backups (`reporting.py`) -/

/-- Externally visible effects of `ServiceReporter.send_report` and
`send_alert` (`reporting.py`), in program order: the local backup writes
(`_save_report_backup` / `_save_alert_backup`, each persisting a JSON
plus an HTML rendering), an SMTP delivery attempt with its outcome, and
the inter-attempt `time.sleep(retry_delay)`. -/
inductive Effect where
  | save_report_backup
  | save_alert_backup
  | email_attempt (ok : Bool)
  | sleep (seconds : Nat)
deriving DecidableEq, Repr

/-- The `for attempt in range(retry_count)` loop of
`ServiceReporter.send_report` (`reporting.py` lines 421-432), entered at
loop index `attempt`.  `email_ok i` tells whether the `i`-th
`send_report_email` call succeeds.  Returns the boolean result of the
surrounding method together with the trace of effects, in order: a
successful attempt returns `True` at once; a failed attempt is followed
by `time.sleep(retry_delay)` unless it was the last
(`attempt < retry_count - 1`); after the loop the method returns
`False`. -/
def send_report_loop (email_ok : Nat → Bool) (retry_count retry_delay attempt : Nat) :
    Bool × List Effect :=
  if attempt < retry_count then
    if email_ok attempt then (true, [.email_attempt true])
    else
      let rest := send_report_loop email_ok retry_count retry_delay (attempt + 1)
      if attempt < retry_count - 1 then
        (rest.1, .email_attempt false :: .sleep retry_delay :: rest.2)
      else
        (rest.1, .email_attempt false :: rest.2)
  else (false, [])
termination_by retry_count - attempt

/-- `ServiceReporter.send_report` (`reporting.py` lines 416-432): always
save the local report backup first ("Always save report locally first"),
then run the retry loop; source defaults are `retry_count=3`,
`retry_delay=300`. -/
def send_report (email_ok : Nat → Bool) (retry_count retry_delay : Nat) :
    Bool × List Effect :=
  let loop := send_report_loop email_ok retry_count retry_delay 0
  (loop.1, .save_report_backup :: loop.2)

/-- `ServiceReporter.send_alert` (`reporting.py` lines 239-245): always
save the alert backup first, then a single `send_alert_email` attempt
whose outcome is returned — no retry. -/
def send_alert (email_ok : Bool) : Bool × List Effect :=
  (email_ok, [.save_alert_backup, .email_attempt email_ok])

/-- Number of delivery attempts recorded in an effect trace. -/
def count_attempts (tr : List Effect) : Nat :=
  tr.countP (fun ev => match ev with | .email_attempt _ => true | _ => false)

/-- Number of inter-attempt sleeps recorded in an effect trace. -/
def count_sleeps (tr : List Effect) : Nat :=
  tr.countP (fun ev => match ev with | .sleep _ => true | _ => false)

end RenderService

open RenderService

/-- **C2.** For every HTTP status code `c` received by `ping_endpoint`, the
result has status `UP` iff `c < 400`; when `c ≥ 400` the status is `DOWN`
and the `error` field contains the code (`"HTTP <c>"`); and every
exception / timeout outcome yields status `DOWN`. -/
theorem ping_endpoint_classification
    (base ep m : String) (timeout_s elapsed_ms : Nat) (c : Nat) :
    ((ping_endpoint base ep m timeout_s elapsed_ms (.response c)).status = .UP ↔ c < 400)
    ∧ (400 ≤ c →
        (ping_endpoint base ep m timeout_s elapsed_ms (.response c)).status = .DOWN
        ∧ ∃ pre post, (ping_endpoint base ep m timeout_s elapsed_ms (.response c)).error
            = some (pre ++ toString c ++ post))
    ∧ (∀ out : HttpOutcome, (∀ code, out ≠ .response code) →
        (ping_endpoint base ep m timeout_s elapsed_ms out).status = .DOWN) := by
  refine ⟨?_, ?_, ?_⟩
  · constructor
    · intro h
      by_contra hc
      simp [ping_endpoint, hc] at h
    · intro h
      simp [ping_endpoint, h]
  · intro h
    have hc : ¬ c < 400 := by omega
    refine ⟨by simp [ping_endpoint, hc], "HTTP ", "", by simp [ping_endpoint, hc]⟩
  · intro out hout
    cases out with
    | response code => exact absurd rfl (hout code)
    | timeout => simp [ping_endpoint]
    | connectionError msg => simp [ping_endpoint]
    | requestError msg => simp [ping_endpoint]
    | otherError msg => simp [ping_endpoint]

/-- Witness for C2 at concrete inputs: code 200 is UP, code 503 is DOWN with
the code in the error string, and a timeout is DOWN. -/
theorem ping_endpoint_classification_witness :
    ((ping_endpoint "https://s" "/ping" "GET" 10 50 (.response 200)).status = .UP ↔ 200 < 400)
    ∧ ((400 ≤ 503 →
        (ping_endpoint "https://s" "/ping" "GET" 10 50 (.response 503)).status = .DOWN
        ∧ ∃ pre post, (ping_endpoint "https://s" "/ping" "GET" 10 50 (.response 503)).error
            = some (pre ++ toString 503 ++ post)))
    ∧ (ping_endpoint "https://s" "/ping" "GET" 10 50 .timeout).status = .DOWN := by
  refine ⟨(ping_endpoint_classification "https://s" "/ping" "GET" 10 50 200).1,
          fun h => ((ping_endpoint_classification "https://s" "/ping" "GET" 10 50 503).2.1 h),
          (ping_endpoint_classification "https://s" "/ping" "GET" 10 50 200).2.2 .timeout
            (by intro code; simp)⟩

/-- **C1.** Starting from the initial HEALTHY state (flag absent), the
observation sequence [down, down, down, up] emits exactly a DOWNTIME
alert on the first down, nothing on the repeated downs, and a RECOVERY
alert on the up — whatever the delivery outcome of each alert. -/
theorem transition_suppression (ok1 ok2 ok3 ok4 : Bool) :
    run_ping_cycles false [(false, ok1), (false, ok2), (false, ok3), (true, ok4)]
      = [some .DOWNTIME, none, none, some .RECOVERY] := by
  rfl

/-- **C10.** The health-flag transition is independent of the alert
delivery outcome: the new flag never depends on `alert_ok`; a
healthy-to-unhealthy observation sets the flag (emitting DOWNTIME) even
when delivery fails, an unhealthy-to-healthy observation clears it
(emitting RECOVERY) even when delivery fails, and after such a failed
RECOVERY a later unhealthy observation emits a fresh DOWNTIME alert. -/
theorem transition_independent_of_alert_outcome
    (notified healthy ok ok' : Bool) :
    (ping_service_step notified healthy ok).2 = (ping_service_step notified healthy ok').2
    ∧ ping_service_step false false ok = (some .DOWNTIME, true)
    ∧ ping_service_step true true ok = (some .RECOVERY, false)
    ∧ (ping_service_step (ping_service_step true true ok).2 false ok').1
        = some .DOWNTIME := by
  cases notified <;> cases healthy <;> exact ⟨rfl, rfl, rfl, rfl⟩

/-- **C9.** `send_report` and `send_alert` both write the local backup as
the very first effect of their trace — before any delivery attempt — for
every delivery outcome and retry configuration, so the backup exists
whether the call returns success or failure. -/
theorem backup_before_delivery (email_ok : Nat → Bool) (rc rd : Nat) (alert_ok : Bool) :
    (send_report email_ok rc rd).2.head? = some .save_report_backup
    ∧ (send_alert alert_ok).2.head? = some .save_alert_backup :=
  ⟨rfl, rfl⟩

/-- **C3.** `is_service_healthy results = true` iff at least one result has
status `UP`; on the empty list it is `false`. -/
theorem is_service_healthy_iff (results : List ProbeResult) :
    (is_service_healthy results = true ↔ ∃ r ∈ results, r.status = .UP)
    ∧ is_service_healthy ([] : List ProbeResult) = false := by
  constructor
  · simp [is_service_healthy, List.any_eq_true]
  · rfl

/-- **C4.** When the window query is empty, `generate_report` returns
`none`; otherwise it returns a report with `total_checks` = the number N
of queried records, `uptime_count` = the number U of UP records among
them, `downtime_count = N - U` (hence
`uptime_count + downtime_count = total_checks`) and
`uptime_percentage = 100·U/N`. -/
theorem generate_report_aggregation (logs : List LogEntry) (s e : Option Int) :
    (get_logs logs s e = [] → generate_report logs s e = none)
    ∧ (get_logs logs s e ≠ [] →
        ∃ r, generate_report logs s e = some r
          ∧ r.total_checks = (get_logs logs s e).length
          ∧ r.uptime_count = (get_logs logs s e).countP (fun l => l.status == .UP)
          ∧ r.downtime_count = r.total_checks - r.uptime_count
          ∧ r.uptime_count + r.downtime_count = r.total_checks
          ∧ r.uptime_percentage = 100 * (r.uptime_count : ℚ) / (r.total_checks : ℚ)) := by
  constructor
  · intro h
    simp [generate_report, h]
  · intro h
    have hne : (get_logs logs s e).isEmpty = false := by
      simp [List.isEmpty_iff, h]
    have hlen : 0 < (get_logs logs s e).length := List.length_pos.mpr h
    have hcount : (get_logs logs s e).countP (fun l => l.status == .UP)
        ≤ (get_logs logs s e).length := List.countP_le_length _
    simp only [generate_report, hne, Bool.false_eq_true, if_false]
    refine ⟨_, rfl, rfl, rfl, rfl, ?_, ?_⟩
    · dsimp only
      omega
    · dsimp only
      rw [if_pos hlen]
      ring

/-- Witness for C4 at a concrete two-record store (one UP, one DOWN). -/
theorem generate_report_aggregation_witness :
    ∃ r, generate_report
        [⟨0, "/ping", "GET", .UP, some 10, some 200, none⟩,
         ⟨1, "/ping", "GET", .DOWN, none, none, some "Connection error: x"⟩] none none
        = some r
      ∧ r.total_checks = (get_logs
          [⟨0, "/ping", "GET", .UP, some 10, some 200, none⟩,
           ⟨1, "/ping", "GET", .DOWN, none, none, some "Connection error: x"⟩] none none).length
      ∧ r.uptime_count = (get_logs
          [⟨0, "/ping", "GET", .UP, some 10, some 200, none⟩,
           ⟨1, "/ping", "GET", .DOWN, none, none, some "Connection error: x"⟩] none none).countP
            (fun l => l.status == .UP)
      ∧ r.downtime_count = r.total_checks - r.uptime_count
      ∧ r.uptime_count + r.downtime_count = r.total_checks
      ∧ r.uptime_percentage = 100 * (r.uptime_count : ℚ) / (r.total_checks : ℚ) :=
  (generate_report_aggregation
    [⟨0, "/ping", "GET", .UP, some 10, some 200, none⟩,
     ⟨1, "/ping", "GET", .DOWN, none, none, some "Connection error: x"⟩] none none).2
    (by decide)

/-- Helper: latencies collected from records passing the source's
truthiness filter are all positive, so their sum is positive. -/
lemma sum_qual_latency_pos (ql : List LogEntry)
    (hq : ∀ l ∈ ql, truthyNat l.response_time_ms = true) (hne : ql ≠ []) :
    0 < (ql.map (fun l => ((l.response_time_ms.getD 0 : Nat) : ℚ))).sum := by
  apply List.sum_pos
  · intro x hx
    obtain ⟨l, hl, rfl⟩ := List.mem_map.mp hx
    have ht := hq l hl
    cases hrt : l.response_time_ms with
    | none => rw [hrt] at ht; simp [truthyNat] at ht
    | some n =>
        rw [hrt] at ht
        simp only [truthyNat, bne_iff_ne, ne_eq] at ht
        simp only [hrt, Option.getD_some]
        exact_mod_cast Nat.pos_of_ne_zero ht
  · simpa using hne

/-- **C5 counterexample.** A store with two UP records, latencies 0 and
100 ms: the spec's mean over "UP records that have a recorded latency"
is (0+100)/2 = 50, but the generated report carries 100 — the source's
truthiness test `log.get("response_time_ms")` drops the UP record whose
recorded latency is 0. -/
theorem average_latency_counterexample :
    (generate_report
      [⟨0, "/ping", "GET", .UP, some 0, some 200, none⟩,
       ⟨1, "/ping", "GET", .UP, some 100, some 200, none⟩] none none).map
      (fun r => r.average_response_time_ms) = some (some 100)
    ∧ ((100 : ℚ)) ≠ (((0 : ℚ) + 100) / 2) := by
  constructor
  · simp only [generate_report, get_logs]
    norm_num [truthyNat, List.filter_cons, round2, roundHalfEven]
  · norm_num

/-- **C5 (amended).** The report's `average_response_time_ms` is computed
over exactly the UP records whose recorded latency is truthy (present
and nonzero — Python truthiness drops both `None` and `0`): when no such
record exists the field is `none`, otherwise it is the two-decimal
rounding of their mean latency. -/
theorem average_latency_amended (logs : List LogEntry) (s e : Option Int) (r : Report)
    (h : generate_report logs s e = some r) :
    r.average_response_time_ms
      = if ((get_logs logs s e).filter
            (fun l => l.status == .UP && truthyNat l.response_time_ms)).isEmpty then none
        else some (round2
          ((((get_logs logs s e).filter
              (fun l => l.status == .UP && truthyNat l.response_time_ms)).map
             (fun l => ((l.response_time_ms.getD 0 : Nat) : ℚ))).sum
           / (((get_logs logs s e).filter
              (fun l => l.status == .UP && truthyNat l.response_time_ms)).length : ℚ))) := by
  by_cases hls : (get_logs logs s e).isEmpty
  · simp [generate_report, hls] at h
  · rw [generate_report] at h
    simp only [hls, Bool.false_eq_true, if_false, Option.some.injEq] at h
    subst h
    simp only
    by_cases hq : ((get_logs logs s e).filter
        (fun l => l.status == .UP && truthyNat l.response_time_ms)).isEmpty
    · simp [hq]
    · have hne : ((get_logs logs s e).filter
          (fun l => l.status == .UP && truthyNat l.response_time_ms)) ≠ [] := by
        simpa [List.isEmpty_iff] using hq
      have hqall : ∀ l ∈ ((get_logs logs s e).filter
          (fun l => l.status == .UP && truthyNat l.response_time_ms)),
          truthyNat l.response_time_ms = true := by
        intro l hl
        have := List.of_mem_filter hl
        simp only [Bool.and_eq_true] at this
        exact this.2
      have hsum := sum_qual_latency_pos _ hqall hne
      have hlen : (0 : ℚ) < (((get_logs logs s e).filter
          (fun l => l.status == .UP && truthyNat l.response_time_ms)).length : ℚ) := by
        exact_mod_cast List.length_pos.mpr hne
      have hpos := div_pos hsum hlen
      simp only [hq, Bool.false_eq_true, if_false]
      rw [if_neg (ne_of_gt hpos)]

/-- Witness for C5 (amended) at a concrete store: one UP record with
latency 0 (excluded by truthiness) and one with latency 100 (kept). -/
theorem average_latency_amended_witness :
    ({ start_time := none, end_time := none, total_checks := 2, uptime_count := 2,
       downtime_count := 0, uptime_percentage := 100,
       average_response_time_ms := some 100, downtime_incidents := [] } :
        Report).average_response_time_ms
      = if ((get_logs
            [⟨0, "/ping", "GET", .UP, some 0, some 200, none⟩,
             ⟨1, "/ping", "GET", .UP, some 100, some 200, none⟩] none none).filter
            (fun l => l.status == .UP && truthyNat l.response_time_ms)).isEmpty then none
        else some (round2
          ((((get_logs
              [⟨0, "/ping", "GET", .UP, some 0, some 200, none⟩,
               ⟨1, "/ping", "GET", .UP, some 100, some 200, none⟩] none none).filter
              (fun l => l.status == .UP && truthyNat l.response_time_ms)).map
             (fun l => ((l.response_time_ms.getD 0 : Nat) : ℚ))).sum
           / (((get_logs
              [⟨0, "/ping", "GET", .UP, some 0, some 200, none⟩,
               ⟨1, "/ping", "GET", .UP, some 100, some 200, none⟩] none none).filter
              (fun l => l.status == .UP && truthyNat l.response_time_ms)).length : ℚ))) :=
  average_latency_amended
    [⟨0, "/ping", "GET", .UP, some 0, some 200, none⟩,
     ⟨1, "/ping", "GET", .UP, some 100, some 200, none⟩] none none
    { start_time := none, end_time := none, total_checks := 2, uptime_count := 2,
      downtime_count := 0, uptime_percentage := 100,
      average_response_time_ms := some 100, downtime_incidents := [] }
    (by
      simp only [generate_report, get_logs]
      norm_num [truthyNat, List.filter_cons, round2, roundHalfEven]
      decide)

/-- **C6 counterexample.** A record whose timestamp exactly equals the
window's `end` bound is kept by `get_logs` (and hence produces a report),
not excluded: the source's filter skips only records with
`log_time > end_time`. -/
theorem window_boundary_counterexample :
    ((⟨10, "/ping", "GET", .UP, some 5, some 200, none⟩ : LogEntry)
        ∈ get_logs [⟨10, "/ping", "GET", .UP, some 5, some 200, none⟩] (some 0) (some 10))
    ∧ generate_report [⟨10, "/ping", "GET", .UP, some 5, some 200, none⟩]
        (some 0) (some 10) ≠ none := by
  constructor
  · decide
  · simp only [generate_report, get_logs]
    norm_num [truthyNat, List.filter_cons]
    exact fun h => Option.noConfusion h

/-- **C6 (amended).** Report aggregation is scoped to the *closed* window
[start, end]: with both bounds present, a record is kept by `get_logs`
iff `start ≤ timestamp` and `timestamp ≤ end`; a record with timestamp
exactly `end` is therefore included in the window query. -/
theorem get_logs_closed_window (logs : List LogEntry) (s e : Int) (l : LogEntry) :
    l ∈ get_logs logs (some s) (some e) ↔ l ∈ logs ∧ s ≤ l.timestamp ∧ l.timestamp ≤ e := by
  simp only [get_logs, List.mem_filter, Bool.and_eq_true, Bool.not_eq_true',
    decide_eq_false_iff_not, not_lt]

/-- **C7 counterexample.** With the reporting schedule configured to
06:30 and the clock reading exactly 06:30 with no report yet sent for
the day, the loop does not send; at 00:00 it sends even though the
configured schedule is 06:30.  The schedule configuration is ignored:
the trigger is hard-coded to midnight. -/
theorem reporting_schedule_counterexample :
    (check_reporting_schedule_tick (6, 30) none ⟨0, 6, 30⟩ true true).1 = false
    ∧ (check_reporting_schedule_tick (6, 30) none ⟨0, 0, 0⟩ true true).1 = true := by
  decide

/-- Helper: a tick that successfully sends records the current date as
handled. -/
lemma tick_sent_updates_date (sched : Nat × Nat) (last : Option Nat) (n : Instant)
    (avail ok : Bool) (h : (check_reporting_schedule_tick sched last n avail ok).1 = true) :
    (check_reporting_schedule_tick sched last n avail ok).2 = some n.date := by
  unfold check_reporting_schedule_tick at h ⊢
  by_cases hm : ((n.hour == 0 && n.minute == 0) && (last != some n.date)) = true
  · rw [if_pos hm] at h ⊢
    cases avail
    · simp at h
    · cases ok
      · simp at h
      · rfl
  · rw [if_neg hm] at h
    simp at h

/-- Helper: a tick whose `last_report_date` already records the current
date never sends. -/
lemma tick_already_sent (sched : Nat × Nat) (n : Instant) (avail ok : Bool) :
    (check_reporting_schedule_tick sched (some n.date) n avail ok).1 = false := by
  unfold check_reporting_schedule_tick
  simp

/-- **C7 (amended).** A report-loop tick sends successfully exactly when
the wall clock reads 00:00 — hard-coded midnight, the configured
`reporting.schedule` value is ignored — and no report has yet been
recorded for the current calendar date (and report data is available and
delivery succeeds); and any two consecutive ticks within the same
calendar day send at most once in total. -/
theorem reporting_schedule_amended (sched : Nat × Nat) (last : Option Nat)
    (n1 n2 : Instant) (avail1 ok1 avail2 ok2 : Bool) (hdate : n1.date = n2.date) :
    ((check_reporting_schedule_tick sched last n1 avail1 ok1).1 = true
      ↔ n1.hour = 0 ∧ n1.minute = 0 ∧ last ≠ some n1.date ∧ avail1 = true ∧ ok1 = true)
    ∧ (check_reporting_schedule_tick sched last n1 avail1 ok1).1.toNat
      + (check_reporting_schedule_tick sched
          (check_reporting_schedule_tick sched last n1 avail1 ok1).2 n2 avail2 ok2).1.toNat
        ≤ 1 := by
  constructor
  · unfold check_reporting_schedule_tick
    cases avail1 <;> cases ok1 <;>
      by_cases h0 : n1.hour = 0 <;> by_cases hmin : n1.minute = 0 <;>
      by_cases hl : last = some n1.date <;>
      simp_all
  · cases hfirst : (check_reporting_schedule_tick sched last n1 avail1 ok1).1
    · simp only [Bool.toNat_false, Nat.zero_add]
      cases (check_reporting_schedule_tick sched
          (check_reporting_schedule_tick sched last n1 avail1 ok1).2 n2 avail2 ok2).1
      · simp
      · simp
    · have h2 := tick_sent_updates_date sched last n1 avail1 ok1 hfirst
      rw [h2, hdate, tick_already_sent]
      simp

/-- Witness for C7 (amended) at concrete ticks: both at 00:00 of the same
date 5, data available and delivery succeeding — the first tick sends,
the second is suppressed. -/
theorem reporting_schedule_amended_witness :
    ((check_reporting_schedule_tick (0, 0) none ⟨5, 0, 0⟩ true true).1 = true
      ↔ (⟨5, 0, 0⟩ : Instant).hour = 0 ∧ (⟨5, 0, 0⟩ : Instant).minute = 0
        ∧ (none : Option Nat) ≠ some (⟨5, 0, 0⟩ : Instant).date ∧ true = true ∧ true = true)
    ∧ (check_reporting_schedule_tick (0, 0) none ⟨5, 0, 0⟩ true true).1.toNat
      + (check_reporting_schedule_tick (0, 0)
          (check_reporting_schedule_tick (0, 0) none ⟨5, 0, 0⟩ true true).2
          ⟨5, 0, 0⟩ true true).1.toNat ≤ 1 :=
  reporting_schedule_amended (0, 0) none ⟨5, 0, 0⟩ ⟨5, 0, 0⟩ true true true true rfl

/-- Helper: when every email attempt fails, the retry loop entered at
index `attempt` returns `false`, records `retry_count - attempt`
attempts and `retry_count - attempt - 1` sleeps. -/
lemma send_report_loop_all_fail (email_ok : Nat → Bool) (h : ∀ i, email_ok i = false)
    (rc rd : Nat) :
    ∀ fuel attempt, rc ≤ attempt + fuel →
      (send_report_loop email_ok rc rd attempt).1 = false
      ∧ count_attempts (send_report_loop email_ok rc rd attempt).2 = rc - attempt
      ∧ count_sleeps (send_report_loop email_ok rc rd attempt).2 = rc - attempt - 1 := by
  intro fuel
  induction fuel with
  | zero =>
      intro attempt hle
      have hnlt : ¬ attempt < rc := by omega
      rw [send_report_loop, if_neg hnlt]
      refine ⟨rfl, ?_, ?_⟩ <;> simp [count_attempts, count_sleeps] <;> omega
  | succ n ih =>
      intro attempt hle
      rw [send_report_loop]
      by_cases hlt : attempt < rc
      · rw [if_pos hlt, h attempt]
        obtain ⟨ih1, ih2, ih3⟩ := ih (attempt + 1) (by omega)
        by_cases hlast : attempt < rc - 1
        · rw [if_pos hlast]
          refine ⟨ih1, ?_, ?_⟩ <;>
            simp only [count_attempts, count_sleeps, List.countP_cons] at ih2 ih3 ⊢ <;>
            simp <;> omega
        · rw [if_neg hlast]
          refine ⟨ih1, ?_, ?_⟩ <;>
            simp only [count_attempts, count_sleeps, List.countP_cons] at ih2 ih3 ⊢ <;>
            simp <;> omega
      · rw [if_neg hlt]
        refine ⟨rfl, ?_, ?_⟩ <;> simp [count_attempts, count_sleeps] <;> omega

/-- **C8.** If every delivery attempt fails, `send_report` performs
exactly `retry_count` email attempts, with a `sleep retry_delay` between
consecutive attempts (`retry_count - 1` sleeps in the trace), and
returns `false` only after all of them (with the source default
`retry_count = 3`: exactly 3 attempts). -/
theorem send_report_retry_exhaustion (email_ok : Nat → Bool)
    (retry_count retry_delay : Nat) (h : ∀ i, email_ok i = false) :
    (send_report email_ok retry_count retry_delay).1 = false
    ∧ count_attempts (send_report email_ok retry_count retry_delay).2 = retry_count
    ∧ count_sleeps (send_report email_ok retry_count retry_delay).2 = retry_count - 1 := by
  obtain ⟨h1, h2, h3⟩ :=
    send_report_loop_all_fail email_ok h retry_count retry_delay retry_count 0 (by omega)
  unfold send_report
  refine ⟨h1, ?_, ?_⟩ <;>
    simp only [count_attempts, count_sleeps, List.countP_cons] at h2 h3 ⊢ <;>
    simp [h2, h3]

/-- Witness for C8 with the source defaults `retry_count = 3`,
`retry_delay = 300` and an always-failing transport. -/
theorem send_report_retry_exhaustion_witness :
    (send_report (fun _ => false) 3 300).1 = false
    ∧ count_attempts (send_report (fun _ => false) 3 300).2 = 3
    ∧ count_sleeps (send_report (fun _ => false) 3 300).2 = 3 - 1 :=
  send_report_retry_exhaustion (fun _ => false) 3 300 (fun _ => rfl)
